import Mathlib

/-!
Verification development for a read-only SQLite-file query engine written in Rust
(sources: `src/main.rs`, `src/page.rs`, `src/database_header.rs`, `src/schema_table.rs`,
`src/sql_parser.rs`).  The Rust code is shallowly embedded: byte streams become `List Nat`
(each element one byte), machine integers become `Nat` with explicit `% 2 ^ w` wrap where
the Rust arithmetic wraps, fallible code returns `Except`, and Rust panics (`panic!`,
`todo!`, debug-mode arithmetic overflow, out-of-bounds indexing, `expect`, `assert_eq!`)
are modelled as distinguished error constructors of `RtError`.
-/

namespace CCSqlite

set_option maxHeartbeats 1000000

/-- Error outcomes of the embedded code.  Constructors beginning with `panic` model Rust
panics (process aborts), the rest model recoverable `Err` values (`binrw::Error`,
`anyhow::Error`, `std::io::Error`). -/
inductive RtError where
  /-- binrw or `read_exact` reached EOF mid-structure. -/
  | truncated
  /-- `anyhow::bail!("When traversing the b tree, only interior and leaf TABLE pages
  should be encountered")` in `get_table_records` and `get_index_records`. -/
  | badTreeShape
  /-- `binrw::Error::Io(InvalidData, "Could not convert varint {n} to record type")`
  in `ColumnType::try_from`. -/
  | invalidSerialType (n : Nat)
  /-- generic `anyhow::bail!` with the given message (schema-table shape errors,
  "Error parsing SQL command"). -/
  | msg (s : String)
  /-- the `todo!()` panic in `parse_record_payload` for `ColumnType::Reserved`. -/
  | panicTodo
  /-- debug-mode arithmetic overflow panic on an unsigned subtraction or an oversized
  shift amount (e.g. `mid - 1` with `mid == 0`, `offsets.len() - 1` on an empty array). -/
  | panicArith
  /-- out-of-bounds indexing panic (`column_contents[0]` on an empty vector,
  `c[0]` on an empty column definition). -/
  | panicIndex
  /-- the `.expect("Could not find table")` panic in `main`. -/
  | panicExpect
  /-- the `assert_eq!` of the two lowercased table names in `main`. -/
  | panicAssert
  /-- the bare `panic!("AA")` at `main.rs:278`, reached unconditionally on the query
  path after the optional index probe. -/
  | panicAA
  /-- a page number outside the modelled page map (a failing `File::seek`/read). -/
  | missingPage (n : Nat)
  /-- artifact of the embedding: bounded loop fuel ran out.  Call sites always pass
  fuel exceeding the loop bound, so evaluations never produce this value. -/
  | fuelExhausted
deriving DecidableEq

/-- Abbreviation for the built-in string type, needed inside namespaces where a
constructor named `String` (mirroring the Rust enum variant) shadows it. -/
abbrev Str : Type := String

/-- ASCII lower-casing of one character; mirrors what Rust `to_lowercase` /
`eq_ignore_ascii_case` do on the ASCII inputs that occur in this development. -/
def asciiLowerChar (c : Char) : Char :=
  if 65 ≤ c.toNat ∧ c.toNat ≤ 90 then Char.ofNat (c.toNat + 32) else c

/-- ASCII lower-casing of a string (model of Rust `str::to_lowercase` on ASCII input). -/
def asciiLower (s : String) : String := String.mk (s.toList.map asciiLowerChar)

/-- Lexicographic comparison of two character lists by code point; on well-formed UTF-8,
byte-wise order (Rust `String: Ord`) coincides with code-point order. -/
def charListLtb : List Char → List Char → Bool
  | [], [] => false
  | [], _ :: _ => true
  | _ :: _, [] => false
  | a :: as, b :: bs =>
    if a.toNat < b.toNat then true
    else if b.toNat < a.toNat then false
    else charListLtb as bs

/-- Model of the Rust `String` order used by `mid_val > val` / `mid_val < val` in
`get_index_records`. -/
def strLtb (a b : String) : Bool := charListLtb a.toList b.toList

/-- Big-endian value of a byte list (used for the fixed-width header fields and
`uN::from_be_bytes`). -/
def beNat (l : List Nat) : Nat := l.foldl (fun a b => a * 256 + b) 0

/-! ## Varint codec (`src/page.rs`, `parse_varint` and `parse_varint_with_bytes`)

The Rust loop is `for shift in 0..9 { let byte = read_u8()?; result <<= 7 * shift;
result |= (byte & 0x7F) as u64; if byte & 0x80 == 0 { break; } }`.  The iteration count
is embedded as the structurally decreasing `remaining` argument (9 at entry), `shift`
counts up exactly as in the source, and the `u64` shift wraps modulo `2 ^ 64`. -/

def parse_varint_iter : Nat → Nat → Nat → List Nat → Except RtError (Nat × List Nat)
  | 0, _, result, bytes => .ok (result, bytes)
  | _ + 1, _, _, [] => .error .truncated
  | rem + 1, shift, result, byte :: rest =>
    let result1 := ((result <<< (7 * shift)) % 2 ^ 64) ||| (byte &&& 0x7F)
    if byte &&& 0x80 = 0 then .ok (result1, rest)
    else parse_varint_iter rem (shift + 1) result1 rest

/-- Model of `parse_varint`: the decoded `u64` plus the unconsumed rest of the input. -/
def parse_varint (bytes : List Nat) : Except RtError (Nat × List Nat) :=
  parse_varint_iter 9 0 0 bytes

def parse_varint_with_bytes_iter :
    Nat → Nat → Nat → Nat → List Nat → Except RtError ((Nat × Nat) × List Nat)
  | 0, _, result, bytes_read, bytes => .ok ((result, bytes_read), bytes)
  | _ + 1, _, _, _, [] => .error .truncated
  | rem + 1, shift, result, bytes_read, byte :: rest =>
    let result1 := ((result <<< (7 * shift)) % 2 ^ 64) ||| (byte &&& 0x7F)
    if byte &&& 0x80 = 0 then .ok ((result1, bytes_read + 1), rest)
    else parse_varint_with_bytes_iter rem (shift + 1) result1 (bytes_read + 1) rest

/-- Model of `parse_varint_with_bytes`: `((value, bytes_read), rest)`. -/
def parse_varint_with_bytes (bytes : List Nat) : Except RtError ((Nat × Nat) × List Nat) :=
  parse_varint_with_bytes_iter 9 0 0 0 bytes

/-- Modelled from the spec (section 4.1 and the claim): the reference varint rule.  The
first up-to-eight bytes each contribute their low 7 bits, the first byte in the
highest-order position; if eight continuation-marked bytes were consumed, the ninth byte
contributes all 8 bits in the lowest position.  Returns `(value, bytes consumed)`. -/
def spec_varint_iter : Nat → Nat → List Nat → Option (Nat × Nat)
  | _, _, [] => none
  | consumed, acc, b :: rest =>
    if consumed = 8 then some ((acc <<< 8) ||| b, 9)
    else
      let acc1 := (acc <<< 7) ||| (b &&& 0x7F)
      if b &&& 0x80 = 0 then some (acc1, consumed + 1)
      else spec_varint_iter (consumed + 1) acc1 rest

/-- Modelled from the spec: reference varint decoding, `(value, bytes consumed)`. -/
def spec_varint (bytes : List Nat) : Option (Nat × Nat) := spec_varint_iter 0 0 bytes

/-! ## Serial types and record payload (`src/page.rs`) -/

/-- The `ColumnType` enum of `src/page.rs`. -/
inductive ColumnType where
  | Null
  | Int8
  | Int16
  | Int24
  | Int32
  | Int48
  | Int64
  | Float64
  | Integer0
  | Integer1
  | Reserved
  | Blob (n : Nat)
  | String (n : Nat)
deriving DecidableEq

/-- Model of `impl TryFrom<u64> for ColumnType`.  Note that serial types 10 and 11 map
to `ColumnType::Reserved` successfully; the final arm is unreachable for any `u64` but
is kept to mirror the source. -/
def ColumnType.try_from (serial_type : Nat) : Except RtError ColumnType :=
  match serial_type with
  | 0 => .ok .Null
  | 1 => .ok .Int8
  | 2 => .ok .Int16
  | 3 => .ok .Int24
  | 4 => .ok .Int32
  | 5 => .ok .Int48
  | 6 => .ok .Int64
  | 7 => .ok .Float64
  | 8 => .ok .Integer0
  | 9 => .ok .Integer1
  | n =>
    if n = 10 ∨ n = 11 then .ok .Reserved
    else if 12 ≤ n ∧ n % 2 = 0 then .ok (.Blob ((n - 12) / 2))
    else if 13 ≤ n ∧ n % 2 = 1 then .ok (.String ((n - 13) / 2))
    else .error (.invalidSerialType n)

/-- The `ColumnContent` enum of `src/page.rs`.  `Int` carries a `u64` exactly as in the
source (the Rust enum is `Int(u64)`, not `Int(i64)`).  `Float` carries the raw
big-endian bit pattern of the `f64`; no claim depends on floating-point semantics. -/
inductive ColumnContent where
  | Null
  | Int (x : Nat)
  | Float (bits : Nat)
  | Blob (bytes : List Nat)
  | String (s : String)
deriving DecidableEq

/-- Decimal rendering of an `f64` (used only by `ColumnContent.repr` on floats).
Floating-point formatting is outside the embedding; no claim exercises it, so it is an
uninterpreted constant function. -/
def floatRepr (bits : Nat) : String := "float:" ++ toString bits

/-- Bytes of a string under Rust `String::from_utf8_lossy` for the ASCII inputs used
here: each byte becomes the character of that code point. -/
def stringFromBytes (bs : List Nat) : String := String.mk (bs.map Char.ofNat)

/-- Model of `ColumnContent::repr` (`src/page.rs:160-168`). -/
def ColumnContent.repr : ColumnContent → Str
  | .Null => ""
  | .Int x => toString x
  | .Float bits => floatRepr bits
  | .Blob _ => "Blob"
  | .String x => x

/-- Reads exactly `n` bytes (`read_exact`): the buffer and the rest, or EOF. -/
def readExact (n : Nat) (bytes : List Nat) : Except RtError (List Nat × List Nat) :=
  if n ≤ bytes.length then .ok (bytes.take n, bytes.drop n) else .error .truncated

/-- Model of one arm of the `parse_record_payload` loop (`src/page.rs:240-315`): decode
one column body from the byte stream.  The `Int24` and `Int48` arms reproduce the
source expressions verbatim, including Rust operator precedence: in
`(buf[0] as u32) << 16 + (buf[1] as u32) << 8 + buf[2] as u32` the additions bind
tighter than the shifts, so the shift amounts are `16 + buf[1]` and `8 + buf[2]`.
A shift amount reaching the bit width panics in Rust (debug), modelled as
`panicArith`; an in-range shift wraps, modelled as `% 2 ^ w`. -/
def decodeColumn (bytes : List Nat) : ColumnType → Except RtError (ColumnContent × List Nat)
  | .Null => .ok (.Null, bytes)
  | .Int8 => do
      let (buf, rest) ← readExact 1 bytes
      .ok (.Int (beNat buf), rest)
  | .Int16 => do
      let (buf, rest) ← readExact 2 bytes
      .ok (.Int (beNat buf), rest)
  | .Int24 => do
      let (buf, rest) ← readExact 3 bytes
      let b0 := buf.getD 0 0
      let b1 := buf.getD 1 0
      let b2 := buf.getD 2 0
      if 32 ≤ 16 + b1 ∨ 32 ≤ 8 + b2 then .error .panicArith
      else
        let v1 := (b0 <<< (16 + b1)) % 2 ^ 32
        let v2 := (v1 <<< (8 + b2)) % 2 ^ 32
        .ok (.Int v2, rest)
  | .Int32 => do
      let (buf, rest) ← readExact 4 bytes
      .ok (.Int (beNat buf), rest)
  | .Int48 => do
      let (buf, rest) ← readExact 6 bytes
      let b0 := buf.getD 0 0
      let b1 := buf.getD 1 0
      let b2 := buf.getD 2 0
      let b3 := buf.getD 3 0
      let b4 := buf.getD 4 0
      let b5 := buf.getD 5 0
      if 64 ≤ 40 + b1 ∨ 64 ≤ 32 + b2 ∨ 64 ≤ 24 + b3 ∨ 64 ≤ 16 + b4 ∨ 64 ≤ 8 + b5 then
        .error .panicArith
      else
        let v1 := (b0 <<< (40 + b1)) % 2 ^ 64
        let v2 := (v1 <<< (32 + b2)) % 2 ^ 64
        let v3 := (v2 <<< (24 + b3)) % 2 ^ 64
        let v4 := (v3 <<< (16 + b4)) % 2 ^ 64
        let v5 := (v4 <<< (8 + b5)) % 2 ^ 64
        .ok (.Int v5, rest)
  | .Int64 => do
      let (buf, rest) ← readExact 8 bytes
      .ok (.Int (beNat buf), rest)
  | .Float64 => do
      let (buf, rest) ← readExact 8 bytes
      .ok (.Float (beNat buf), rest)
  | .Integer0 => .ok (.Int 0, bytes)
  | .Integer1 => .ok (.Int 1, bytes)
  | .Reserved => .error .panicTodo
  | .Blob n => do
      let (buf, rest) ← readExact n bytes
      .ok (.Blob buf, rest)
  | .String n => do
      let (buf, rest) ← readExact n bytes
      .ok (.String (stringFromBytes buf), rest)

/-- Model of `parse_record_payload` (`src/page.rs:220-320`): decode one column body per
declared serial type, in order.  The source also threads a `nb_bytes_parsed` counter
which it never reads back; the counter is omitted. -/
def parse_record_payload (column_types : List ColumnType) (bytes : List Nat) :
    Except RtError (List ColumnContent) :=
  match column_types with
  | [] => .ok []
  | t :: ts => do
      let (content, rest) ← decodeColumn bytes t
      let tail ← parse_record_payload ts rest
      .ok (content :: tail)

/-- Modelled from the spec (record table in section 3): the two's-complement value of a
big-endian signed integer body. -/
def spec_signed_be (bytes : List Nat) : Int :=
  let u := beNat bytes
  if u < 2 ^ (8 * bytes.length - 1) then (u : Int) else (u : Int) - 2 ^ (8 * bytes.length)

/-! ## Database header (`src/database_header.rs`)

`DatabaseHeader` is a binrw big-endian struct over the first 100 bytes of the file with
four `assert` clauses: the magic string, the three fixed payload fractions, the
schema-format-number range, and the 20 reserved bytes.  `String::from_utf8_lossy` maps a
16-byte buffer to the ASCII string `"SQLite format 3\0"` exactly when the buffer holds
precisely those bytes (the replacement character and all multi-byte decodings are
non-ASCII), so the magic assert is byte-list equality. -/

/-- The 16 magic bytes, `"SQLite format 3"` followed by a NUL. -/
def sqliteMagic : List Nat :=
  [83, 81, 76, 105, 116, 101, 32, 102, 111, 114, 109, 97, 116, 32, 51, 0]

/-- Model of the helper `vector_all_zeros` (`src/database_header.rs:42-49`). -/
def vector_all_zeros (v : List Nat) : Bool := v.all (fun b => b = 0)

structure DatabaseHeader where
  magic_string : List Nat
  page_size : Nat
  file_format_write_version : Nat
  file_format_read_version : Nat
  bytes_unused_reserved_space : Nat
  max_embedded_payload_fraction : Nat
  min_embedded_payload_fraction : Nat
  leaf_payload_fraction : Nat
  file_change_counter : Nat
  in_header_db_size : Nat
  page_no_first_freelink_trunk_page : Nat
  total_no_freelist_pages : Nat
  schema_cookie : Nat
  schema_format_number : Nat
  default_page_cache_size : Nat
  largest_root_b_tree_page_number_auto_incremental_vacuum : Nat
  db_text_encoding : Nat
  user_version : Nat
  incremental_vacuum_mode : Nat
  application_id : Nat
  reserved : List Nat
  version_valid_for_number : Nat
  sqlite_version_number : Nat
deriving DecidableEq

/-- Byte at offset `i` of the stream. -/
def byteAt (bytes : List Nat) (i : Nat) : Nat := (bytes.drop i).headD 0

/-- Big-endian field of `n` bytes at offset `i`. -/
def beField (bytes : List Nat) (i n : Nat) : Nat := beNat ((bytes.drop i).take n)

/-- Model of `DatabaseHeader::read`: sequential big-endian field reads over the first
100 bytes with the four binrw `assert` clauses evaluated at their fields, in field
order.  Reading past EOF is `truncated`; since every field lies at a fixed offset, the
sequential reads are expressed as fixed-offset slices guarded by one length check. -/
def DatabaseHeader.read (bytes : List Nat) : Except RtError DatabaseHeader :=
  if bytes.length < 100 then .error .truncated
  else if bytes.take 16 ≠ sqliteMagic then .error (.msg "assert: magic_string")
  else if byteAt bytes 21 ≠ 64 then .error (.msg "assert: max_embedded_payload_fraction")
  else if byteAt bytes 22 ≠ 32 then .error (.msg "assert: min_embedded_payload_fraction")
  else if byteAt bytes 23 ≠ 32 then .error (.msg "assert: leaf_payload_fraction")
  else if ¬ (1 ≤ beField bytes 44 4 ∧ beField bytes 44 4 ≤ 4) then
    .error (.msg "assert: schema_format_number")
  else if ¬ vector_all_zeros ((bytes.drop 72).take 20) then .error (.msg "assert: reserved")
  else
    .ok
      { magic_string := bytes.take 16
        page_size := beField bytes 16 2
        file_format_write_version := byteAt bytes 18
        file_format_read_version := byteAt bytes 19
        bytes_unused_reserved_space := byteAt bytes 20
        max_embedded_payload_fraction := byteAt bytes 21
        min_embedded_payload_fraction := byteAt bytes 22
        leaf_payload_fraction := byteAt bytes 23
        file_change_counter := beField bytes 24 4
        in_header_db_size := beField bytes 28 4
        page_no_first_freelink_trunk_page := beField bytes 32 4
        total_no_freelist_pages := beField bytes 36 4
        schema_cookie := beField bytes 40 4
        schema_format_number := beField bytes 44 4
        default_page_cache_size := beField bytes 48 4
        largest_root_b_tree_page_number_auto_incremental_vacuum := beField bytes 52 4
        db_text_encoding := beField bytes 56 4
        user_version := beField bytes 60 4
        incremental_vacuum_mode := beField bytes 64 4
        application_id := beField bytes 68 4
        reserved := (bytes.drop 72).take 20
        version_valid_for_number := beField bytes 92 4
        sqlite_version_number := beField bytes 96 4 }

/-! ## Pages and the table B-tree traversal (`src/main.rs`, `get_table_records`)

The on-disk file is a graph of fixed-size pages addressed by page number; cells reference
child pages through 4-byte page numbers and `main.rs` follows them with `File::seek`.
For a well-formed database that reference structure is a forest, embedded here as an
inductive tree: a cell's `left_child_pointer` becomes the child subtree itself, and the
on-page cell-pointer order becomes the list order.  `BTreeTableLeafCell` carries
`(integer_key, record)` (its leading payload-length varint is absorbed by the tree
model), `BTreeTableInteriorCell` carries `(left child, integer_key)`, and the two index
cell shapes (`BTreeIndexInteriorCell`, `BTreeIndexLeafCell`) are declared in `main.rs`
but missing from the sources, so they are modelled from the spec, section 3 "Cells":
an interior index cell is a left-child page plus a record payload (the key), a leaf
index cell is a record payload. -/

/-- The `Record` struct of `src/page.rs` as it reaches the executor: its decoded column
contents (the header byte counts and serial-type list only direct the byte-level
decoding modelled by `parse_record_payload`). -/
structure Record where
  column_contents : List ColumnContent
deriving DecidableEq

inductive Page where
  /-- `PageType::LeafTable` (13): cells are `(integer_key, record)`. -/
  | leafTable (cells : List (Nat × Record))
  /-- `PageType::InteriorTable` (5): cells are `(left child, integer_key)`, plus the
  page header's `right_most_pointer`. -/
  | interiorTable (cells : List (Page × Nat)) (rightmost : Page)
  /-- `PageType::LeafIndex` (10): cells are record payloads (modelled from the spec). -/
  | leafIndex (cells : List Record)
  /-- `PageType::InteriorIndex` (2): cells are `(left child, record payload)` (modelled
  from the spec), plus the `right_most_pointer`. -/
  | interiorIndex (cells : List (Page × Record)) (rightmost : Page)

mutual
/-- Model of `get_table_records` (`src/main.rs:55-124`): on a leaf table page push each
cell's record in cell-pointer order; on an interior table page recurse into every cell's
left child in cell-pointer order and then into the right-most pointer; on any other page
type `anyhow::bail!` (modelled `badTreeShape`). -/
def get_table_records : Page → Except RtError (List Record)
  | .leafTable cells => .ok (cells.map Prod.snd)
  | .interiorTable cells rightmost => do
      let recs ← get_table_records_children cells
      let last ← get_table_records rightmost
      pure (recs ++ last)
  | _ => .error .badTreeShape

/-- The `for offset in page_cell_pointer_array.offsets` loop of the `InteriorTable` arm:
recurse into each cell's left child in order, concatenating the results. -/
def get_table_records_children : List (Page × Nat) → Except RtError (List Record)
  | [] => pure []
  | c :: rest => do
      let r1 ← get_table_records c.1
      let r2 ← get_table_records_children rest
      pure (r1 ++ r2)
end

mutual
/-- Modelled from the claim: a page tree is a well-shaped table subtree when every node
is a `LeafTable` or an `InteriorTable` (including the right-most child). -/
def tableShapeOk : Page → Bool
  | .leafTable _ => true
  | .interiorTable cells rightmost => tableShapeOkList cells && tableShapeOk rightmost
  | _ => false

def tableShapeOkList : List (Page × Nat) → Bool
  | [] => true
  | c :: rest => tableShapeOk c.1 && tableShapeOkList rest
end

mutual
/-- Modelled from the claim: the leaf records of a table subtree in traversal order —
leaf cells in cell-pointer order; for an interior page the children in cell-pointer
order and then the right-most child. -/
def tableLeaves : Page → List Record
  | .leafTable cells => cells.map Prod.snd
  | .interiorTable cells rightmost => tableLeavesList cells ++ tableLeaves rightmost
  | _ => []

def tableLeavesList : List (Page × Nat) → List Record
  | [] => []
  | c :: rest => tableLeaves c.1 ++ tableLeavesList rest
end

/-! ## Index B-tree probe (`src/main.rs`, `get_index_records`)

The probe carries an explicit `fuel` argument that strictly decreases on every recursive
call; it only bounds the recursion depth plus the number of loop iterations of the
embedding, and every use in this file passes fuel exceeding that bound (no evaluation
below produces `fuelExhausted`). -/

/-- Model of the `while l < r` binary search of the `InteriorIndex` arm
(`src/main.rs:150-168`).  `mid_val` is `cells[mid].record.column_contents[0].repr()`
(indexing an empty vector panics); on `mid_val > val` the source sets `r = mid - 1`,
which underflows `usize` when `mid == 0` (modelled `panicArith`); on `mid_val < val` it
sets `l = mid + 1`; on equality it breaks.  Returns the final `(l, r)`. -/
def idxBinSearch (cells : List (Page × Record)) (val : Str) :
    Nat → Nat → Nat → Except RtError (Nat × Nat)
  | 0, _, _ => .error .fuelExhausted
  | fuel + 1, l, r =>
    if l < r then
      let mid := l + (r - l) / 2
      match cells.get? mid with
      | none => .error .panicIndex
      | some cell =>
        match cell.2.column_contents with
        | [] => .error .panicIndex
        | c0 :: _ =>
          let mid_val := c0.repr
          if strLtb val mid_val then
            if mid = 0 then .error .panicArith
            else idxBinSearch cells val fuel l (mid - 1)
          else if strLtb mid_val val then idxBinSearch cells val fuel (mid + 1) r
          else .ok (l, r)
    else .ok (l, r)

/-- The `for child_record in child_records` filter inside the scan loop of
`get_index_records`: keep the records whose first column equals
`ColumnContent::String(val)` (structural equality models the derived `PartialEq` the
comparison requires); indexing `column_contents[0]` panics on an empty vector. -/
def girFilter (val : Str) : List Record → Except RtError (List Record)
  | [] => .ok []
  | rec1 :: rest =>
    match rec1.column_contents with
    | [] => .error .panicIndex
    | c0 :: _ => do
      let tail ← girFilter val rest
      pure (if c0 = ColumnContent.String val then rec1 :: tail else tail)

mutual
/-- Model of `get_index_records` (`src/main.rs:126-216`).  On an `InteriorIndex` page:
`let mut r = offsets.len() - 1` underflows on an empty cell array (modelled
`panicArith`); then the binary search narrows `(l, r)` and the `for pos in l..=r` scan
(`girScan`) collects results.  The right-most pointer is never descended (the source
has `TODO: handle case when we have to use right most pointer`).  On a `LeafIndex`
page every cell record is returned, unfiltered.  Any other page type is
`anyhow::bail!` (modelled `badTreeShape`). -/
def get_index_records : Nat → Page → Str → Except RtError (List Record)
  | 0, _, _ => .error .fuelExhausted
  | fuel + 1, .interiorIndex cells _rightmost, val =>
      if cells.length = 0 then .error .panicArith
      else
        match idxBinSearch cells val (cells.length + 1) 0 (cells.length - 1) with
        | .error e => .error e
        | .ok (l, r) => girScan fuel cells val l r
  | _ + 1, .leafIndex cells, _ => .ok cells
  | _ + 1, _, _ => .error .badTreeShape

/-- The `for pos in l..=r` loop of the `InteriorIndex` arm (`src/main.rs:169-190`):
for each position, push the cell's record if its first column's `repr` equals `val`,
then recurse into the cell's left child and keep exactly the child records whose first
column equals `ColumnContent::String(val)` (indexing `column_contents[0]` panics on an
empty vector). -/
def girScan : Nat → List (Page × Record) → Str → Nat → Nat → Except RtError (List Record)
  | 0, _, _, _, _ => .error .fuelExhausted
  | fuel + 1, cells, val, pos, r =>
      if pos > r then .ok []
      else
        match cells.get? pos with
        | none => .error .panicIndex
        | some cell =>
          match cell.2.column_contents with
          | [] => .error .panicIndex
          | c0 :: _ => do
            let here := if c0.repr = val then [cell.2] else []
            let child_records ← get_index_records fuel cell.1 val
            let kept ← girFilter val child_records
            let rest ← girScan fuel cells val (pos + 1) r
            pure (here ++ kept ++ rest)
end

/-! ## Schema catalog (`src/schema_table.rs`) -/

structure SchemaTableRecord where
  coltype : Str
  name : Str
  tbl_name : Str
  rootpage : Nat
  sql : Str
deriving DecidableEq

/-- Model of `impl TryFrom<Record> for SchemaTableRecord`
(`src/schema_table.rs:61-101`): the source first bails unless there are exactly five
columns, then matches each of the five by index; the single five-element pattern is the
same decision tree.  Note the fifth column (`sql`) also accepts a `Blob`, rendered as
the literal string `"Blob"`. -/
def SchemaTableRecord.try_from (record : Record) : Except RtError SchemaTableRecord :=
  match record.column_contents with
  | [c0, c1, c2, c3, c4] => do
      let coltype ←
        match c0 with
        | ColumnContent.String x => Except.ok x
        | _ => Except.error (RtError.msg "Wrong column type for schema table")
      let name ←
        match c1 with
        | ColumnContent.String x => Except.ok x
        | _ => Except.error (RtError.msg "Wrong column type for schema table")
      let tbl_name ←
        match c2 with
        | ColumnContent.String x => Except.ok x
        | _ => Except.error (RtError.msg "Wrong column type for schema table")
      let rootpage ←
        match c3 with
        | ColumnContent.Int x => Except.ok x
        | _ => Except.error (RtError.msg "Wrong column type for schema table")
      let sql ←
        match c4 with
        | ColumnContent.String x => Except.ok x
        | ColumnContent.Blob _ => Except.ok "Blob"
        | _ => Except.error (RtError.msg "Wrong column type for schema table")
      Except.ok { coltype, name, tbl_name, rootpage, sql }
  | _ => .error (.msg "Wrong number of columns to build the schema table")

structure SchemaTable where
  records : List SchemaTableRecord
deriving DecidableEq

/-- Model of `impl TryFrom<Vec<Record>> for SchemaTable` (`src/schema_table.rs:37-51`):
`filter_map(|r| SchemaTableRecord::try_from(r).ok())` — records that fail the shape
check are silently dropped and the construction itself always returns `Ok`. -/
def SchemaTable.try_from (records : List Record) : Except RtError SchemaTable :=
  .ok ⟨records.filterMap (fun r => (SchemaTableRecord.try_from r).toOption)⟩

/-- Model of `SchemaTable::get_schema_record_for_table` (`src/schema_table.rs:26-34`):
first entry with `type == "table"` and case-insensitively matching name. -/
def SchemaTable.get_schema_record_for_table (st : SchemaTable) (name : Str) :
    Option SchemaTableRecord :=
  st.records.findSome? (fun s =>
    if s.coltype = "table" ∧ asciiLower s.name = asciiLower name then some s else none)

/-- Modelled from the claim C8: a record of exactly five columns of shapes
(text, text, text, integer, text). -/
def claimed_schema_shape (r : Record) : Bool :=
  match r.column_contents with
  | [ColumnContent.String _, ColumnContent.String _, ColumnContent.String _,
     ColumnContent.Int _, ColumnContent.String _] => true
  | _ => false

/-- The schema entry the source actually keeps for a record, as a declarative partial
map: five columns of shapes (text, text, text, integer, text-or-blob), a blob `sql`
rendered `"Blob"`.  Used to state the amended C8. -/
def schema_entry_spec (r : Record) : Option SchemaTableRecord :=
  match r.column_contents with
  | [c0, c1, c2, c3, c4] =>
    match c0, c1, c2, c3, c4 with
    | ColumnContent.String t, ColumnContent.String n, ColumnContent.String tn,
      ColumnContent.Int rp, ColumnContent.String sql => some ⟨t, n, tn, rp, sql⟩
    | ColumnContent.String t, ColumnContent.String n, ColumnContent.String tn,
      ColumnContent.Int rp, ColumnContent.Blob _ => some ⟨t, n, tn, rp, "Blob"⟩
    | _, _, _, _, _ => none
  | _ => none

/-! ## SQL mini-parser (`src/sql_parser.rs`)

The nom combinators are embedded over `List Char`: a parser maps the input to
`none` (nom `Err`) or `some (rest, value)`.  `separated_list0/1` carry fuel equal to
the input length plus one; every separator of this grammar consumes at least one
character on success, so the fuel bound is never reached. -/

abbrev Inp := List Char

/-- nom `tag`: exact prefix. -/
def tagP (t : List Char) (inp : Inp) : Option (Inp × List Char) :=
  if inp.take t.length = t ∧ t.length ≤ inp.length then some (inp.drop t.length, t)
  else none

/-- nom `tag_no_case`: ASCII case-insensitive prefix. -/
def tagNoCase (t : List Char) (inp : Inp) : Option (Inp × List Char) :=
  if (inp.take t.length).map asciiLowerChar = t.map asciiLowerChar ∧ t.length ≤ inp.length
  then some (inp.drop t.length, inp.take t.length)
  else none

/-- nom `char`. -/
def charP (c : Char) : Inp → Option (Inp × Char)
  | [] => none
  | x :: rest => if x = c then some (rest, c) else none

/-- nom `take_while1`. -/
def takeWhile1P (p : Char → Bool) (inp : Inp) : Option (Inp × List Char) :=
  match inp.takeWhile p with
  | [] => none
  | pre => some (inp.drop pre.length, pre)

/-- nom `take_until` for the single-character patterns used by the source: the prefix
before the first occurrence, failing when the character is absent. -/
def takeUntilCh (c : Char) (inp : Inp) : Option (Inp × List Char) :=
  let pre := inp.takeWhile (fun x => x ≠ c)
  if pre.length = inp.length then none else some (inp.drop pre.length, pre)

/-- nom multispace characters: space, tab, carriage return, line feed. -/
def isMultispace (c : Char) : Bool := c = ' ' ∨ c = '\t' ∨ c = '\r' ∨ c = '\n'

def multispace0 (inp : Inp) : Option (Inp × List Char) :=
  some (inp.dropWhile isMultispace, inp.takeWhile isMultispace)

def multispace1 (inp : Inp) : Option (Inp × List Char) :=
  takeWhile1P isMultispace inp

/-- nom `space0`: spaces and tabs only. -/
def space0 (inp : Inp) : Option (Inp × List Char) :=
  some (inp.dropWhile (fun c => c = ' ' ∨ c = '\t'), inp.takeWhile (fun c => c = ' ' ∨ c = '\t'))

/-- The loop of nom `separated_list0/1` after a first item: repeatedly parse separator
then item; stop (without consuming the separator) as soon as either fails. -/
def sepListGo {σ β : Type} (sep : Inp → Option (Inp × σ)) (item : Inp → Option (Inp × β)) :
    Nat → Inp → List β → Option (Inp × List β)
  | 0, inp, acc => some (inp, acc.reverse)
  | fuel + 1, inp, acc =>
    match sep inp with
    | none => some (inp, acc.reverse)
    | some (inp1, _) =>
      match item inp1 with
      | none => some (inp, acc.reverse)
      | some (inp2, b) => sepListGo sep item fuel inp2 (b :: acc)

/-- nom `separated_list0`: a failing first item yields the empty list. -/
def separatedList0 {σ β : Type} (sep : Inp → Option (Inp × σ))
    (item : Inp → Option (Inp × β)) (inp : Inp) : Option (Inp × List β) :=
  match item inp with
  | none => some (inp, [])
  | some (inp1, b) => sepListGo sep item (inp1.length + 1) inp1 [b]

/-- nom `separated_list1`: the first item must succeed. -/
def separatedList1 {σ β : Type} (sep : Inp → Option (Inp × σ))
    (item : Inp → Option (Inp × β)) (inp : Inp) : Option (Inp × List β) :=
  match item inp with
  | none => none
  | some (inp1, b) => sepListGo sep item (inp1.length + 1) inp1 [b]

/-- The character class of `parse_identifier`: `_` or alphanumeric (`char::is_alphanumeric`
agrees with `Char.isAlphanum` on the ASCII inputs used here). -/
def identChar (c : Char) : Bool := c = '_' ∨ c.isAlphanum

/-- Model of `parse_identifier` (`src/sql_parser.rs:32-41`): optional surrounding
whitespace around either a `[A-Za-z0-9_]+` run or a double-quoted chunk. -/
def parse_identifier (inp : Inp) : Option (Inp × List Char) := do
  let (inp, _) ← multispace0 inp
  let (inp, s) ←
    match takeWhile1P identChar inp with
    | some r => some r
    | none => do
        let (inp, _) ← charP '"' inp
        let (inp, s) ← takeUntilCh '"' inp
        let (inp, _) ← charP '"' inp
        pure (inp, s)
  let (inp, _) ← multispace0 inp
  pure (inp, s)

/-- The character class of `parse_identifier_or_star` (`src/sql_parser.rs:47-55`). -/
def identOrStarChar (c : Char) : Bool :=
  c = '(' ∨ c = ')' ∨ c = '*' ∨ c = '\'' ∨ c = '_' ∨ c.isAlphanum

def parse_identifier_or_star (inp : Inp) : Option (Inp × List Char) := do
  let (inp, _) ← multispace0 inp
  let (inp, s) ← takeWhile1P identOrStarChar inp
  let (inp, _) ← multispace0 inp
  pure (inp, s)

/-- The separator of `parse_columns`: `delimited(multispace0, char(','), multispace0)`. -/
def commaSep (inp : Inp) : Option (Inp × Char) := do
  let (inp, _) ← multispace0 inp
  let (inp, c) ← charP ',' inp
  let (inp, _) ← multispace0 inp
  pure (inp, c)

def parse_columns (inp : Inp) : Option (Inp × List (List Char)) :=
  separatedList0 commaSep parse_identifier_or_star inp

/-- Model of `parse_value` (`src/sql_parser.rs:64-66`): a single-quoted chunk. -/
def parse_value (inp : Inp) : Option (Inp × List Char) := do
  let (inp, _) ← charP '\'' inp
  let (inp, s) ← takeUntilCh '\'' inp
  let (inp, _) ← charP '\'' inp
  pure (inp, s)

/-- Model of `parse_where_clause` (`src/sql_parser.rs:68-81`). -/
def parse_where_clause (inp : Inp) : Option (Inp × (List Char × List Char)) := do
  let (inp, _) ← tagNoCase "WHERE".toList inp
  let (inp, _) ← multispace1 inp
  let (inp, col) ← parse_identifier inp
  let (inp, _) ← multispace0 inp
  let (inp, _) ← charP '=' inp
  let (inp, _) ← multispace0 inp
  let (inp, v) ← parse_value inp
  let (inp, _) ← multispace0 inp
  pure (inp, (col, v))

structure SelectQuery where
  columns : List Str
  tablename : Str
  where_clause : Option (Str × Str)
deriving DecidableEq

/-- Model of `parse_select_command` (`src/sql_parser.rs:83-108`).  As in the source,
the `WHERE` clause is parsed with `.ok().unzip()`: its leftover input is discarded and
a parse failure simply leaves `where_clause` empty. -/
def parse_select_command (input : Str) : Option (Inp × SelectQuery) := do
  let inp := input.toList
  let (inp, _) ← tagNoCase "SELECT".toList inp
  let (inp, columns) ← parse_columns inp
  let columns := columns.map (fun s => String.mk s)
  let (inp, _) ← space0 inp
  let (inp, _) ← tagNoCase "FROM".toList inp
  let (inp, tablename) ← parse_identifier inp
  let where_clause := (parse_where_clause inp).map
    (fun r => (String.mk r.2.1, String.mk r.2.2))
  pure (inp, { columns, tablename := String.mk tablename, where_clause })

structure CreateTableQuery where
  columns_and_types : List (List Str)
  tablename : Str
deriving DecidableEq

/-- Model of `parse_column_def` (`src/sql_parser.rs:110-116`): one or more
whitespace-separated `[A-Za-z0-9_]+` tokens. -/
def parse_column_def (inp : Inp) : Option (Inp × List (List Char)) :=
  separatedList1 multispace1 (takeWhile1P identChar) inp

/-- The item of `parse_column_defs`: `delimited(multispace0, parse_column_def,
multispace0)`. -/
def columnDefItem (inp : Inp) : Option (Inp × List (List Char)) := do
  let (inp, _) ← multispace0 inp
  let (inp, d) ← parse_column_def inp
  let (inp, _) ← multispace0 inp
  pure (inp, d)

def parse_column_defs (inp : Inp) : Option (Inp × List (List (List Char))) :=
  separatedList0 (tagP ",".toList) columnDefItem inp

/-- Model of `parse_create_table_command` (`src/sql_parser.rs:127-145`). -/
def parse_create_table_command (input : Str) : Option (Inp × CreateTableQuery) := do
  let inp := input.toList
  let (inp, _) ← tagNoCase "CREATE TABLE".toList inp
  let (inp, tablename) ← parse_identifier inp
  let (inp, _) ← tagNoCase "(".toList inp
  let (inp, _) ← multispace0 inp
  let (inp, cts) ← parse_column_defs inp
  pure (inp, { columns_and_types := cts.map (fun d => d.map (fun s => String.mk s)),
               tablename := String.mk tablename })

structure CreateIndexQuery where
  indexname : Str
  colname : Str
  tablename : Str
deriving DecidableEq

/-- Model of `parse_create_index_command` (`src/sql_parser.rs:148-168`). -/
def parse_create_index_command (input : Str) : Option (Inp × CreateIndexQuery) := do
  let inp := input.toList
  let (inp, _) ← tagNoCase "CREATE INDEX".toList inp
  let (inp, indexname) ← parse_identifier inp
  let (inp, _) ← multispace0 inp
  let (inp, _) ← tagNoCase "on".toList inp
  let (inp, _) ← multispace0 inp
  let (inp, tablename) ← parse_identifier inp
  let (inp, _) ← tagNoCase "(".toList inp
  let (inp, _) ← multispace0 inp
  let (inp, colname) ← parse_identifier inp
  pure (inp, { indexname := String.mk indexname, colname := String.mk colname,
               tablename := String.mk tablename })

/-- Modelled from the spec: `SchemaTable::get_schema_index_for_table` is called at
`src/main.rs:258-259` but its definition is missing from the sources.  Spec section 4.9:
"`indexes_on(table, column)` — index entries whose parsed `CREATE INDEX` targets that
`(table, column)`"; the entry is returned together with its parsed query, as the call
site destructures `(index_record, create_index_query)`. -/
def SchemaTable.get_schema_index_for_table (st : SchemaTable) (tablename colname : Str) :
    Option (SchemaTableRecord × CreateIndexQuery) :=
  st.records.findSome? (fun s =>
    if s.coltype = "index" ∧ asciiLower s.tbl_name = asciiLower tablename then
      match parse_create_index_command s.sql with
      | some (_, q) =>
          if asciiLower q.tablename = asciiLower tablename ∧
             asciiLower q.colname = asciiLower colname then some (s, q)
          else none
      | none => none
    else none)

/-! ## The query path of `main` (`src/main.rs:218-344`)

`run_select` models the branch of `main` taken for a SQL-command argument, from the
parsed command to the point where the function would print.  The open file becomes a
page map (`Db`); `DatabaseHeader::read` is modelled separately (`DatabaseHeader.read`)
and its only use on this path, the page size, is absorbed by the page map, which
resolves the root-page numbers the code turns into byte offsets.  The `dbg!`
statements only log.  Crucially, `main.rs:278` is a bare `panic!("AA")` executed
unconditionally after the optional index probe, so lines 280-334 (the scan, count and
projection logic) are unreachable and every successfully bound query ends in the
`panicAA` outcome; nothing is ever printed. -/

structure Db where
  pages : Nat → Option Page

/-- Resolve a root-page number through the page map (a failing `File::seek`/read on a
page number outside the file is `missingPage`). -/
def fetchPage (db : Db) (n : Nat) : Except RtError Page :=
  match db.pages n with
  | some p => .ok p
  | none => .error (.missingPage n)

/-- Fuel handed to `get_index_records` by `run_select`; it only bounds the embedding's
recursion depth plus loop steps, and exceeds both for every database in this file. -/
def girFuel : Nat := 1000000

/-- Model of the SQL-command branch of `main` (`src/main.rs:223-339`): parse the
command (failure is `anyhow::bail!("Error parsing SQL command")`); read the schema
B-tree from page 1 and build the catalog; look up the table (`.expect` panics if
absent); parse its stored `CREATE TABLE` DDL (failure bails; a mismatching table name
fails the `assert_eq!`; `c[0]` on an empty column definition panics); when a `WHERE`
clause is present, optionally probe the index found for its column; then hit the
unconditional `panic!("AA")` at `src/main.rs:278`.  Returns the printed lines on
success — but no path reaches a print. -/
def run_select (sql_command : Str) (db : Db) : Except RtError (List Str) :=
  match parse_select_command sql_command with
  | none => .error (.msg "Error parsing SQL command")
  | some (_, select_query) => do
      let records ← (fetchPage db 1).bind get_table_records
      let schema_table ← SchemaTable.try_from records
      let table_record ←
        match schema_table.get_schema_record_for_table select_query.tablename with
        | some r => Except.ok r
        | none => Except.error RtError.panicExpect
      let _col_names ←
        match parse_create_table_command table_record.sql with
        | some (_, create_table_query) =>
            if asciiLower create_table_query.tablename = asciiLower select_query.tablename
            then
              create_table_query.columns_and_types.mapM (fun c =>
                match c.head? with
                | some h => Except.ok h
                | none => Except.error RtError.panicIndex)
            else Except.error RtError.panicAssert
        | none => Except.error (RtError.msg "Error parsing SQL command")
      let _index_records ←
        match select_query.where_clause with
        | none => Except.ok []
        | some wc =>
          match schema_table.get_schema_index_for_table select_query.tablename wc.1 with
          | none => Except.ok []
          | some (index_record, _) => do
              let ipage ← fetchPage db index_record.rootpage
              get_index_records girFuel ipage wc.2
      Except.error RtError.panicAA

/-! ## Concrete databases and inputs for the claims -/

/-- The stored DDL of the `apples` table of scenario S4. -/
def s4CreateSql : Str := "CREATE TABLE apples (id integer primary key, name text, color text)"

/-- The schema-catalog row for `apples` (root page 2). -/
def s4SchemaRecord : Record :=
  ⟨[.String "table", .String "apples", .String "apples", .Int 2, .String s4CreateSql]⟩

/-- Page 1: the schema B-tree, a single leaf. -/
def s4SchemaPage : Page := .leafTable [(1, s4SchemaRecord)]

/-- The three `apples` rows; `id` is the `INTEGER PRIMARY KEY` alias, so its stored
column is NULL and the rowid is the leaf cell key. -/
def s4Row1 : Record := ⟨[.Null, .String "Honeycrisp", .String "Red"]⟩

def s4Row2 : Record := ⟨[.Null, .String "Granny", .String "Green"]⟩

def s4Row3 : Record := ⟨[.Null, .String "Gala", .String "Red"]⟩

/-- Page 2: the `apples` table, a single leaf with rows at rowids 1, 2, 3. -/
def s4ApplesPage : Page := .leafTable [(1, s4Row1), (2, s4Row2), (3, s4Row3)]

/-- The S4 database: page 1 the schema, page 2 the `apples` table. -/
def s4Db : Db := ⟨fun n => if n = 1 then some s4SchemaPage else if n = 2 then some s4ApplesPage else none⟩

/-- The S4 query. -/
def s4Query : Str := "SELECT name FROM apples WHERE color = 'Red'"

/-- The count query of claim C5. -/
def s5CountQuery : Str := "SELECT COUNT(*) FROM apples"

/-- An index record with key "A" (first indexed column), for the index-probe claims. -/
def recKeyA : Record := ⟨[.String "A", .Int 1]⟩

/-- An index record with key "B". -/
def recKeyB : Record := ⟨[.String "B", .Int 2]⟩

/-- An index record with key "C". -/
def recKeyC : Record := ⟨[.String "C", .Int 3]⟩

/-- Claim C3's input: an `InteriorIndex` root whose single separator is "A" with a leaf
child holding "A", and whose right-most child is a leaf holding "B".  A probe for "B"
must descend the right-most child to find `recKeyB`. -/
def c3RightLeaf : Page := .leafIndex [recKeyB]

def c3Root : Page := .interiorIndex [(Page.leafIndex [recKeyA], recKeyA)] c3RightLeaf

/-- Claim C10's input: an `InteriorIndex` root with two separators "B" and "C"; probing
for "A" drives the binary search to `mid = 0` with `mid_val > val`. -/
def c10Root : Page :=
  .interiorIndex [(Page.leafIndex [recKeyA], recKeyB), (Page.leafIndex [recKeyC], recKeyC)]
    (Page.leafIndex [recKeyC])

/-- A valid 100-byte header: the magic, fractions 64/32/32 at offsets 21-23,
schema format number 1 at offsets 44-47, all other bytes zero (the 20 reserved bytes
at offsets 72-91 among them). -/
def goodHeaderBytes : List Nat :=
  sqliteMagic ++ List.replicate 5 0 ++ [64, 32, 32] ++ List.replicate 20 0 ++
    [0, 0, 0, 1] ++ List.replicate 52 0

/-- A schema-catalog record whose fifth (`sql`) column is a blob: not of the claimed
shape (text, text, text, integer, text), yet kept by the source. -/
def c8BadRecord : Record :=
  ⟨[.String "table", .String "t", .String "t", .Int 2, .Blob [0]]⟩

/-!
## Theorems

One theorem per claim of the specification audit, preceded by helper lemmas shared
between them.
-/

/-- Helper for the amended C8: the source keeps for a record exactly what the
declarative shape map `schema_entry_spec` yields. -/
theorem try_from_toOption_eq_spec (r : Record) :
    (SchemaTableRecord.try_from r).toOption = schema_entry_spec r := by
  obtain ⟨cs⟩ := r
  rcases cs with _ | ⟨c0, _ | ⟨c1, _ | ⟨c2, _ | ⟨c3, _ | ⟨c4, _ | ⟨c5, rest⟩⟩⟩⟩⟩⟩
  · rfl
  · rfl
  · rfl
  · rfl
  · rfl
  · cases c0 <;> try rfl
    all_goals cases c1 <;> try rfl
    all_goals cases c2 <;> try rfl
    all_goals cases c3 <;> try rfl
    all_goals cases c4 <;> rfl
  · rfl

/-- C1: the claim states the varint decoder consumes exactly k bytes and gives the
first byte the highest-order 7 bits, each later continuation byte the next lower
7 bits (ninth byte all 8 bits), inverting encoding on `[0, 2^64)`.  The code shifts
the accumulator by `7 * shift` (a growing amount) instead of 7, so already the 3-byte
varint `[0x81, 0x81, 0x01]` decodes to 2113537 while the rule of the spec gives
16513; the byte count (3) is the only part the code gets right. -/
theorem varint_decoder_wrong_shift :
    parse_varint_with_bytes [0x81, 0x81, 0x01] = .ok ((2113537, 3), []) ∧
    parse_varint [0x81, 0x81, 0x01] = .ok (2113537, []) ∧
    spec_varint [0x81, 0x81, 0x01] = some (16513, 3) ∧
    (2113537 : Nat) ≠ 16513 :=
  ⟨rfl, rfl, rfl, by decide⟩

/-- C2: the claim states that `SELECT name FROM apples WHERE color = 'Red'` against
the S4 table prints `Honeycrisp\nGala\n`.  The embedded query path instead reaches the
unconditional `panic!("AA")` at `src/main.rs:278` before any row can be emitted. -/
theorem select_where_panics_aa :
    run_select s4Query s4Db = .error .panicAA ∧
    run_select s4Query s4Db ≠ .ok ["Honeycrisp", "Gala"] :=
  ⟨rfl, fun h =>
    Except.noConfusion
      ((rfl : run_select s4Query s4Db = Except.error RtError.panicAA).symm.trans h)⟩

/-- C3: the claim states the index probe returns at least every record whose indexed
column equals the search key, descending the right-most child when the key exceeds all
separators.  On `c3Root` the key "B" exceeds the only separator "A"; the matching
record sits in the right-most leaf (probing that leaf alone returns it), yet the probe
from the root returns nothing, because `get_index_records` never descends
`right_most_pointer` (the source carries a `TODO` for exactly this case). -/
theorem index_probe_misses_rightmost :
    get_index_records 100 c3Root "B" = .ok [] ∧
    get_index_records 100 c3RightLeaf "B" = .ok [recKeyB] :=
  ⟨rfl, rfl⟩

/-- C4: the claim states serial types 1-6 decode as signed big-endian two's-complement
integers.  The code decodes them unsigned — serial type 1 on body `[0xFF]` yields
`Int 255` where the two's-complement value is -1 — and the `Int24` arm additionally
mis-parenthesizes its shifts (Rust `+` binds tighter than `<<`), so body `[0, 0, 5]`
yields `Int 0` instead of 5. -/
theorem record_int_decode_unsigned :
    parse_record_payload [ColumnType.Int8] [255] = .ok [ColumnContent.Int 255] ∧
    spec_signed_be [255] = -1 ∧
    parse_record_payload [ColumnType.Int24] [0, 0, 5] = .ok [ColumnContent.Int 0] ∧
    spec_signed_be [0, 0, 5] = 5 ∧
    (255 : Int) ≠ -1 ∧ (0 : Int) ≠ 5 :=
  ⟨rfl, by decide, rfl, by decide, by decide, by decide⟩

/-- C5: the claim states `SELECT COUNT(*) FROM t` prints the row count (filtered by any
`WHERE`).  The embedded query path reaches the unconditional `panic!("AA")` at
`src/main.rs:278` first; the counting code at `src/main.rs:284-288` (which would also
ignore the `WHERE` filter) is unreachable, and nothing is printed. -/
theorem count_query_panics_aa :
    run_select s5CountQuery s4Db = .error .panicAA ∧
    run_select s5CountQuery s4Db ≠ .ok ["3"] :=
  ⟨rfl, fun h =>
    Except.noConfusion
      ((rfl : run_select s5CountQuery s4Db = Except.error RtError.panicAA).symm.trans h)⟩

/-- C6: the table traversal yields exactly the leaf records of the subtree — leaf
cells in cell-pointer order, interior children in cell-pointer order followed by the
right-most child — and errors (`badTreeShape`) whenever any page of the subtree is not
a table page. -/
theorem table_traversal_yields_leaves (p : Page) :
    get_table_records p =
      (if tableShapeOk p then .ok (tableLeaves p) else .error .badTreeShape) := by
  refine get_table_records.induct
    (fun p => get_table_records p =
      (if tableShapeOk p then .ok (tableLeaves p) else .error .badTreeShape))
    (fun cells => get_table_records_children cells =
      (if tableShapeOkList cells then .ok (tableLeavesList cells)
       else .error .badTreeShape))
    ?_ ?_ ?_ ?_ ?_ p
  · intro cells
    rfl
  · intro cells rightmost ihc ihr
    rw [get_table_records, tableShapeOk, tableLeaves, ihc, ihr]
    by_cases h1 : tableShapeOkList cells <;> by_cases h2 : tableShapeOk rightmost <;>
      simp [h1, h2] <;> rfl
  · intro t h1 h2
    cases t with
    | leafTable cells => exact absurd rfl (h1 cells)
    | interiorTable cells rightmost => exact absurd rfl (h2 cells rightmost)
    | leafIndex cells => rfl
    | interiorIndex cells rightmost => rfl
  · rfl
  · intro c rest ihc ihrest
    rw [get_table_records_children, tableShapeOkList, tableLeavesList, ihc, ihrest]
    by_cases h1 : tableShapeOk c.1 <;> by_cases h2 : tableShapeOkList rest <;>
      simp [h1, h2] <;> rfl

/-- C7: over a 100-byte input, header parsing succeeds exactly when the magic is
`"SQLite format 3\0"`, the three payload fractions are 64/32/32, the schema format
number lies in 1..4 and all 20 reserved bytes are zero; any violated constraint fails
the open. -/
theorem header_parse_iff (bytes : List Nat) (h : bytes.length = 100) :
    (DatabaseHeader.read bytes).isOk = true ↔
      (bytes.take 16 = sqliteMagic ∧ byteAt bytes 21 = 64 ∧ byteAt bytes 22 = 32 ∧
       byteAt bytes 23 = 32 ∧ (1 ≤ beField bytes 44 4 ∧ beField bytes 44 4 ≤ 4) ∧
       vector_all_zeros ((bytes.drop 72).take 20) = true) := by
  have h100 : ¬ bytes.length < 100 := by omega
  rw [DatabaseHeader.read, if_neg h100]
  split_ifs with h1 h2 h3 h4 h5 h6 <;> simp_all [Except.isOk, Except.toBool]

/-- Witness for C7: a concrete valid 100-byte header satisfies the hypothesis and
parses successfully. -/
theorem header_parse_iff_witness :
    goodHeaderBytes.length = 100 ∧ (DatabaseHeader.read goodHeaderBytes).isOk = true :=
  ⟨by decide, (header_parse_iff goodHeaderBytes (by decide)).mpr (by decide)⟩

/-- C8 counterexample: the claim states every schema record not of shape
(text, text, text, integer, text) is dropped; `c8BadRecord` has a blob in the `sql`
column — not of that shape — yet the catalog keeps it (with `sql` rendered "Blob"). -/
theorem schema_blob_sql_kept :
    claimed_schema_shape c8BadRecord = false ∧
    SchemaTable.try_from [c8BadRecord] = .ok ⟨[⟨"table", "t", "t", 2, "Blob"⟩]⟩ :=
  ⟨rfl, rfl⟩

/-- C8 amended: constructing the catalog never fails, and it keeps exactly the records
of shape (text, text, text, integer, text-or-blob) — a blob `sql` column is accepted
and rendered "Blob" — dropping all others silently. -/
theorem schema_catalog_never_fails (records : List Record) :
    SchemaTable.try_from records = .ok ⟨records.filterMap schema_entry_spec⟩ := by
  unfold SchemaTable.try_from
  rw [List.filterMap_congr (fun r _ => try_from_toOption_eq_spec r)]

/-- C9: the claim states a record with serial type 10 or 11 fails with a recoverable
error and decoding never crashes.  `ColumnType::try_from` in fact accepts 10 and 11 as
`Reserved`, and the payload decoder then hits `todo!()` — a panic (modelled
`panicTodo`), not an `Err` the catalog path could tolerate by dropping the row. -/
theorem reserved_serial_type_panics :
    ColumnType.try_from 10 = .ok ColumnType.Reserved ∧
    ColumnType.try_from 11 = .ok ColumnType.Reserved ∧
    parse_record_payload [ColumnType.Reserved] [] = .error .panicTodo :=
  ⟨rfl, rfl, rfl⟩

/-- C10: on `c10Root` (separators "B", "C"), probing for "A" makes the binary search
reach `mid = 0` with `cells[0]` strictly greater than the key, so the source computes
`r = mid - 1` on a `usize` zero: the subtraction underflows and the probe panics
(modelled `panicArith`) instead of returning a result or an error. -/
theorem index_probe_underflow_panics :
    get_index_records 100 c10Root "A" = .error .panicArith :=
  rfl

end CCSqlite
